import Mathlib

/-!
Shallow embedding of the resilient risk-assessment and prediction-orchestration
core of the dengue-ai frontend:

* `assessDengueRisk` and its score accumulation (src/services/weatherService.ts),
* the `WeatherService` cache fast-path (src/services/weatherService.ts),
* the primary `AdvancedDengueAIClient` — `predictOutbreak`,
  `getSimulatedPrediction`, `submitReport`, `mapBackendCategoryToFrontend`
  (src/lib/advanced-dengue-ai-client.ts, first client in the file),
* the second client variant's `predictOutbreak` (same file, second client).

JavaScript numbers are modelled as exact rationals together with an explicit
IEEE-754 binary64 round-to-nearest-even operation `fl`, applied to every
decimal literal and to every arithmetic result, mirroring double arithmetic
exactly for the magnitudes that occur here.  Asynchronous network behaviour is
modelled by an explicit behaviour parameter (one constructor per outcome of
each `fetch`/`json()` call), and `throw`/`catch` by `Except`.
-/

/-- JS `x || y` where `x` is an optional number field: `undefined`, and the
number `0`, are falsy and select `y`. -/
def jsOrN (x : Option ℚ) (y : ℚ) : ℚ :=
  match x with
  | none => y
  | some v => if v = 0 then y else v

/-- JS `x || y` where `x` is an optional string field: `undefined`, and the
empty string, are falsy and select `y`. -/
def jsOrS (x : Option String) (y : String) : String :=
  match x with
  | none => y
  | some s => if s = "" then y else s

/-- JS `x || y` where `x` is an optional array field: a present array is
always truthy (even when empty), so only `undefined` selects `y`. -/
def jsOrArr (x : Option (List String)) (y : List String) : List String :=
  x.getD y

/-- JS `x || false` for an optional boolean field. -/
def jsOrB (x : Option Bool) : Bool :=
  x.getD false

/-- JS truthiness of an optional string value (`undefined` and `""` are
falsy). -/
def jsTruthyS (x : Option String) : Bool :=
  match x with
  | none => false
  | some s => s != ""

/-- JS `a > c` where `a` may be `undefined` (`undefined > c` is `false`). -/
def jsGT (x : Option ℚ) (c : ℚ) : Bool :=
  match x with
  | none => false
  | some v => decide (c < v)

/-- Round a rational to the nearest integer, ties to even (the IEEE-754
default rounding used by JS arithmetic). -/
def rne (x : ℚ) : ℤ :=
  let f := Rat.floor x
  let r := x - (f : ℚ)
  if r < 1 / 2 then f
  else if 1 / 2 < r then f + 1
  else if f % 2 = 0 then f else f + 1

/-- `2 ^ k` as a rational, for an integer exponent. -/
def pow2 (k : ℤ) : ℚ :=
  if 0 ≤ k then ((2 ^ k.toNat : ℕ) : ℚ) else 1 / ((2 ^ (-k).toNat : ℕ) : ℚ)

/-- The binary exponent of a positive rational: the unique `k` with
`2 ^ k ≤ q < 2 ^ (k + 1)`, computed by bounded search.  All doubles arising
in this development have magnitude inside `[2 ^ (-20), 2 ^ 21)`, which the
search range covers. -/
def dexp (q : ℚ) : ℤ :=
  (List.range 42).foldl
    (fun acc i =>
      let k : ℤ := (i : ℤ) - 20
      if pow2 k ≤ q ∧ q < pow2 (k + 1) then k else acc)
    0

/-- IEEE-754 binary64 rounding of a positive rational: round the 53-bit
significand to nearest, ties to even. -/
def flPos (q : ℚ) : ℚ :=
  let e : ℤ := 52 - dexp q
  (rne (q * pow2 e) : ℚ) * pow2 (-e)

/-- The binary64 double nearest to a rational.  Models the value of a JS
number literal and the rounding step of every JS arithmetic operation
(normal range only; subnormals and overflow do not occur here). -/
def fl (q : ℚ) : ℚ :=
  if q = 0 then 0 else if 0 < q then flPos q else -flPos (-q)

/-- JS double addition: exact sum, then binary64 rounding. -/
def dadd (x y : ℚ) : ℚ := fl (x + y)

/-- JS double multiplication: exact product, then binary64 rounding. -/
def dmul (x y : ℚ) : ℚ := fl (x * y)

/-- JS double division: exact quotient, then binary64 rounding. -/
def ddiv (x y : ℚ) : ℚ := fl (x / y)

/-- The four risk levels used across the frontend. -/
inductive RiskLevel
  | Low
  | Medium
  | High
  | Critical
  deriving DecidableEq, Repr

/-- Stand-in for the JS number-to-string conversion used when a numeric value
is interpolated into a template string (integral values print without a
fractional part, as in JS). -/
def numStr (q : ℚ) : String :=
  if q.den = 1 then toString q.num else toString q

/-- Result shape of `assessDengueRisk` in weatherService.ts: a risk level
together with the accumulated reasoning strings. -/
structure DengueRiskOut where
  risk : RiskLevel
  reasoning : List String
  deriving DecidableEq, Repr

/-- The score-and-reasons accumulation of `assessDengueRisk`
(weatherService.ts lines 59–93): the temperature, humidity and rainfall
if-chains, run in that order, each adding to `riskScore` and pushing its
reason string. -/
def dengueScoreReasons (temp humidity rainfall : ℚ) : ℤ × List String :=
  let s0 : ℤ × List String := (0, [])
  let s1 :=
    if 25 ≤ temp ∧ temp ≤ 30 then
      (s0.1 + 3, s0.2 ++ ["Temperature in optimal Aedes breeding range (25-30°C)"])
    else if 30 < temp ∧ temp ≤ 35 then
      (s0.1 + 2, s0.2 ++ ["High temperature accelerates mosquito development"])
    else if 35 < temp then
      (s0.1 + 1, s0.2 ++ ["Extreme heat may reduce mosquito activity"])
    else s0
  let s2 :=
    if 70 ≤ humidity then
      (s1.1 + 3, s1.2 ++ ["High humidity (" ++ numStr humidity ++ "%) supports mosquito survival"])
    else if 60 ≤ humidity then
      (s1.1 + 2, s1.2 ++ ["Moderate humidity suitable for mosquito breeding"])
    else if humidity < 50 then
      (s1.1 - 1, s1.2 ++ ["Low humidity inhibits mosquito survival"])
    else s1
  let s3 :=
    if 100 < rainfall then
      (s2.1 + 3, s2.2 ++ ["Heavy rainfall creates multiple breeding sites"])
    else if 50 < rainfall then
      (s2.1 + 2, s2.2 ++ ["Moderate rainfall provides water accumulation"])
    else s2
  s3

/-- `assessDengueRisk` from weatherService.ts (lines 51–112): accumulate the
score and reasons, then determine the level (`≥ 7` Critical, `≥ 5` High,
`≥ 3` Medium, else Low), pushing one more context reason for the Critical and
High levels. -/
def assessDengueRisk (temp humidity rainfall : ℚ) : DengueRiskOut :=
  let sr := dengueScoreReasons temp humidity rainfall
  if 7 ≤ sr.1 then
    ⟨.Critical, sr.2 ++ ["Conditions match July 2025 heatwave/September flood patterns"]⟩
  else if 5 ≤ sr.1 then
    ⟨.High, sr.2 ++ ["Similar to peak monsoon conditions in Selangor"]⟩
  else if 3 ≤ sr.1 then
    ⟨.Medium, sr.2⟩
  else
    ⟨.Low, sr.2⟩

/-- The reason strings contributed by the temperature rule alone. -/
def tempReasons (temp : ℚ) : List String :=
  if 25 ≤ temp ∧ temp ≤ 30 then
    ["Temperature in optimal Aedes breeding range (25-30°C)"]
  else if 30 < temp ∧ temp ≤ 35 then
    ["High temperature accelerates mosquito development"]
  else if 35 < temp then
    ["Extreme heat may reduce mosquito activity"]
  else []

/-- The reason strings contributed by the humidity rule alone. -/
def humidityReasons (humidity : ℚ) : List String :=
  if 70 ≤ humidity then
    ["High humidity (" ++ numStr humidity ++ "%) supports mosquito survival"]
  else if 60 ≤ humidity then
    ["Moderate humidity suitable for mosquito breeding"]
  else if humidity < 50 then
    ["Low humidity inhibits mosquito survival"]
  else []

/-- The reason strings contributed by the rainfall rule alone. -/
def rainfallReasons (rainfall : ℚ) : List String :=
  if 100 < rainfall then
    ["Heavy rainfall creates multiple breeding sites"]
  else if 50 < rainfall then
    ["Moderate rainfall provides water accumulation"]
  else []

/-- The context reason pushed by the level-determination step, as a function
of the summed score. -/
def levelReasons (score : ℤ) : List String :=
  if 7 ≤ score then
    ["Conditions match July 2025 heatwave/September flood patterns"]
  else if 5 ≤ score then
    ["Similar to peak monsoon conditions in Selangor"]
  else []

set_option maxHeartbeats 1600000 in
lemma dengueScoreReasons_snd (t h r : ℚ) :
    (dengueScoreReasons t h r).2 =
      tempReasons t ++ humidityReasons h ++ rainfallReasons r := by
  simp only [dengueScoreReasons, tempReasons, humidityReasons, rainfallReasons]
  split_ifs <;> rfl

/-- The `current` block of a WeatherStack response (weatherService.ts
`WeatherStackResponse`). -/
structure WSCurrent where
  temperature : ℚ
  humidity : ℚ
  precip : ℚ
  feelslike : ℚ
  uv_index : ℚ
  visibility : ℚ
  weather_descriptions : List String
  deriving DecidableEq, Repr

/-- The `location` block of a WeatherStack response. -/
structure WSLocation where
  name : String
  country : String
  region : String
  deriving DecidableEq, Repr

/-- A WeatherStack current-conditions payload. -/
structure WeatherStackResponse where
  current : WSCurrent
  location : WSLocation
  deriving DecidableEq, Repr

/-- One entry of the `WeatherService` in-memory cache:
`{ data, timestamp }`. -/
structure WSCacheEntry where
  data : WeatherStackResponse
  timestamp : ℤ

/-- Outcome of the single `fetch` that `getWeatherStackData` may perform. -/
inductive WSNet
  | transportError
  | notOk (status : ℤ)
  | ok (payload : WeatherStackResponse)

/-- Result of one `getWeatherStackData` call: the returned value (`null` on
failure), the cache after the call, and whether a network request was
issued. -/
structure WSFetchOut where
  resp : Option WeatherStackResponse
  cache : String → Option WSCacheEntry
  fetched : Bool

/-- `cacheTimeout` of `WeatherService`: 10 minutes in milliseconds. -/
def cacheTimeout : ℤ := 10 * 60 * 1000

/-- `WeatherService.getWeatherStackData` (weatherService.ts lines 160–194):
check the cache under key `weatherstack_<location>` and return the entry
directly while its age is below `cacheTimeout`; otherwise fetch, cache a
successful payload under the key with the current time, and return `null`
(after the internal `catch`) on a transport error or a non-OK status.
`now` is the value of `Date.now()` during the call. -/
def getWeatherStackData (cache : String → Option WSCacheEntry) (now : ℤ)
    (net : WSNet) (location : String) : WSFetchOut :=
  let cacheKey := "weatherstack_" ++ location
  let hit : Option WeatherStackResponse :=
    match cache cacheKey with
    | some e => if now - e.timestamp < cacheTimeout then some e.data else none
    | none => none
  match hit with
  | some d => ⟨some d, cache, false⟩
  | none =>
    match net with
    | .ok payload =>
      ⟨some payload,
        fun k => if k = cacheKey then some ⟨payload, now⟩ else cache k, true⟩
    | .notOk _ => ⟨none, cache, true⟩
    | .transportError => ⟨none, cache, true⟩


/-- `OutbreakPredictionRequest` (advanced-dengue-ai-client.ts): the optional
weather fields may be `undefined`. -/
structure OutbreakPredictionRequest where
  location : String
  state : String
  temperature : Option ℚ
  humidity : Option ℚ
  rainfall : Option ℚ
  wind_speed : Option ℚ
  description : Option String
  date : Option String
  deriving DecidableEq, Repr

/-- One family of prediction fields that the normalizer probes on the
payload (`ai_analysis`, `risk_assessment`, `basic_prediction`, or the
payload object itself). -/
structure PredFields where
  risk_score : Option ℚ
  confidence : Option ℚ
  risk_level : Option String
  predicted_cases : Option ℚ
  deriving DecidableEq, Repr

/-- A backend weather block (`real_weather_data` / `weather_data`). -/
structure BackWeather where
  temperature : ℚ
  humidity : ℚ
  rainfall : ℚ
  deriving DecidableEq, Repr

/-- A 200-response body of `POST /predict/live-weather` as the normalizer
sees it: an optional `error` field, up to three named prediction blocks plus
the payload's own fields (the `|| result` fallback), two possible weather
blocks, and optional recommendations. -/
structure PredPayload where
  error : Option String
  ai_analysis : Option PredFields
  risk_assessment : Option PredFields
  basic_prediction : Option PredFields
  selfFields : PredFields
  real_weather_data : Option BackWeather
  weather_data : Option BackWeather
  recommendations : Option (List String)
  deriving DecidableEq, Repr

/-- The `weather_data` block of a returned prediction: either the backend
block passed through, or the simulated block `{temperature, humidity,
rainfall, simulated: true}` echoing the (possibly undefined) request
fields. -/
inductive RespWeather
  | backW (w : BackWeather)
  | simW (temperature humidity rainfall : Option ℚ)
  deriving DecidableEq, Repr

/-- `environmental_factors` of a normalized prediction. -/
structure EnvFactors where
  temperature_impact : ℚ
  humidity_impact : ℚ
  rainfall_impact : ℚ
  population_density_impact : ℚ
  deriving DecidableEq, Repr

/-- The `prediction` block of a normalized prediction. -/
structure PredCore where
  outbreak_probability : ℚ
  risk_level : String
  predicted_cases : ℚ
  confidence : ℚ
  deriving DecidableEq, Repr

/-- `feature_importance` of the `real_ai_analysis` block. -/
structure FeatImportance where
  temperature : ℚ
  humidity : ℚ
  rainfall : ℚ
  deriving DecidableEq, Repr

/-- The `real_ai_analysis` block of a normalized prediction. -/
structure RealAiAnalysis where
  model_used : String
  feature_importance : FeatImportance
  accuracy_score : ℚ
  data_source : String
  deriving DecidableEq, Repr

/-- The `quantum_insights` block (its `resource_allocation` record
flattened into its two fields). -/
structure QuantumInsights where
  optimal_response_strategy : String
  prevention_priority : String
  monitoring_intensity : String
  deriving DecidableEq, Repr

/-- `AdvancedOutbreakPrediction`, the normalized result type of the primary
client's `predictOutbreak`. -/
structure AdvancedOutbreakPrediction where
  status : String
  prediction : PredCore
  environmental_factors : EnvFactors
  recommendations : List String
  real_ai_analysis : RealAiAnalysis
  quantum_insights : QuantumInsights
  weather_data : Option RespWeather
  timestamp : String
  deriving DecidableEq, Repr

/-- `getSimulatedPrediction` (advanced-dengue-ai-client.ts lines 354–414):
threshold risks from the (possibly undefined) request weather fields, their
double-arithmetic average, breakpoints `> 0.8 / > 0.6 / > 0.4`, and
`predicted_cases = Math.floor(avgRisk * 150)`.  `now` is the ISO timestamp
produced during the call. -/
def getSimulatedPrediction (data : OutbreakPredictionRequest) (now : String) :
    AdvancedOutbreakPrediction :=
  let tempRisk := if jsGT data.temperature 28 then fl (8/10) else fl (5/10)
  let humidityRisk := if jsGT data.humidity 70 then fl (9/10) else fl (6/10)
  let rainfallRisk := if jsGT data.rainfall 5 then fl (7/10) else fl (4/10)
  let avgRisk := ddiv (dadd (dadd tempRisk humidityRisk) rainfallRisk) 3
  let riskLevel : String :=
    if fl (8/10) < avgRisk then "Critical"
    else if fl (6/10) < avgRisk then "High"
    else if fl (4/10) < avgRisk then "Medium"
    else "Low"
  { status := "success (simulated)"
    prediction :=
      { outbreak_probability := avgRisk
        risk_level := riskLevel
        predicted_cases := (Rat.floor (dmul avgRisk 150) : ℚ)
        confidence := fl (75/100) }
    environmental_factors :=
      { temperature_impact := tempRisk
        humidity_impact := humidityRisk
        rainfall_impact := rainfallRisk
        population_density_impact := fl (6/10) }
    recommendations :=
      [ "Remove all sources of standing water"
      , "Use mosquito repellent during peak hours"
      , "Keep surroundings clean and dry"
      , "Monitor for fever symptoms"
      , "Contact local health authorities if symptoms appear" ]
    real_ai_analysis :=
      { model_used := "RandomForest"
        feature_importance :=
          { temperature := tempRisk
            humidity := humidityRisk
            rainfall := rainfallRisk }
        accuracy_score := fl (75/100)
        data_source := "Malaysian_Real_Data" }
    quantum_insights :=
      { optimal_response_strategy := "Standard prevention with monitoring"
        prevention_priority := riskLevel
        monitoring_intensity := "Standard" }
    weather_data := some (.simW data.temperature data.humidity data.rainfall)
    timestamp := now }

/-- The prediction-field coalescing
`result.ai_analysis || result.risk_assessment || result.basic_prediction || result`
(line 299): the first present block, falling back to the payload's own
fields (a present object is always truthy). -/
def selectPrediction (p : PredPayload) : PredFields :=
  match p.ai_analysis with
  | some f => f
  | none =>
    match p.risk_assessment with
    | some f => f
    | none =>
      match p.basic_prediction with
      | some f => f
      | none => p.selfFields

/-- The weather coalescing `result.real_weather_data || result.weather_data`
(line 300). -/
def selectWeather (p : PredPayload) : Option BackWeather :=
  match p.real_weather_data with
  | some w => some w
  | none => p.weather_data

/-- Outcome of the health-probe `fetch` in the primary `predictOutbreak`. -/
inductive HealthOutcome
  | fetchThrows
  | respNotOk
  | respOk
  deriving DecidableEq, Repr

/-- Outcome of the `POST /predict/live-weather` call:
transport error, non-OK status (with the optional parsed error body), a
200 whose `json()` rejects, or a parsed 200 payload. -/
inductive PredOutcome
  | fetchThrows
  | respNotOk (errBody : Option String)
  | okParseFails
  | okBody (p : PredPayload)
  deriving DecidableEq, Repr

/-- The backend behaviour one primary-client `predictOutbreak` call can
observe: the health probe's outcome, then the prediction call's outcome
(consulted only if the probe responded OK). -/
structure Behavior1 where
  health : HealthOutcome
  pred : PredOutcome
  deriving DecidableEq, Repr

/-- Result of the primary `predictOutbreak`: the settled promise (`ok` =
resolved, `error` = rejected) plus whether the prediction network call was
issued. -/
structure PredictRun where
  result : Except String AdvancedOutbreakPrediction
  predCalled : Bool

/-- The success-path response transform of the primary `predictOutbreak`
(lines 302–341). -/
def normalizePrediction (p : PredPayload) (now : String) :
    AdvancedOutbreakPrediction :=
  let prediction := selectPrediction p
  let weatherData := selectWeather p
  { status := "success"
    prediction :=
      { outbreak_probability :=
          ddiv (jsOrN prediction.risk_score
            (jsOrN prediction.confidence (fl (7/10)))) 100
        risk_level := jsOrS prediction.risk_level "Medium"
        predicted_cases := jsOrN prediction.predicted_cases 85
        confidence := jsOrN prediction.confidence (fl (85/100)) }
    environmental_factors :=
      { temperature_impact :=
          match weatherData with
          | some w => ddiv w.temperature 40
          | none => fl (75/100)
        humidity_impact :=
          match weatherData with
          | some w => ddiv w.humidity 100
          | none => fl (8/10)
        rainfall_impact :=
          match weatherData with
          | some w => min (ddiv w.rainfall 50) 1
          | none => fl (3/10)
        population_density_impact := fl (6/10) }
    recommendations :=
      jsOrArr p.recommendations
        [ "Remove all sources of standing water"
        , "Use mosquito repellent during peak hours"
        , "Keep surroundings clean and dry"
        , "Monitor for fever symptoms" ]
    real_ai_analysis :=
      { model_used := "RandomForest"
        feature_importance :=
          { temperature :=
              match weatherData with
              | some w => jsOrN (some (ddiv w.temperature 40)) (fl (75/100))
              | none => fl (75/100)
            humidity :=
              match weatherData with
              | some w => jsOrN (some (ddiv w.humidity 100)) (fl (8/10))
              | none => fl (8/10)
            rainfall :=
              match weatherData with
              | some w => min (ddiv w.rainfall 50) 1
              | none => fl (3/10) }
        accuracy_score := fl (89/100)
        data_source := "Malaysian_Real_Data" }
    quantum_insights :=
      { optimal_response_strategy := "Enhanced monitoring with immediate prevention"
        prevention_priority := "High"
        monitoring_intensity := "Enhanced" }
    weather_data := weatherData.map .backW
    timestamp := now }

/-- The primary client's `predictOutbreak` (lines 228–349): probe
`GET /health`; on a non-OK or failing probe return the simulated prediction
without calling the prediction endpoint; otherwise `POST
/predict/live-weather` and either normalize the payload or fall back to the
simulated prediction (non-OK response, transport error, unparsable body, or
a truthy `error` field in a 200 payload).  Every `throw` is caught by the
surrounding `try`/`catch`, which also answers with the simulated
prediction. -/
def predictOutbreak (data : OutbreakPredictionRequest) (b : Behavior1)
    (now : String) : PredictRun :=
  match b.health with
  | .fetchThrows => ⟨.ok (getSimulatedPrediction data now), false⟩
  | .respNotOk => ⟨.ok (getSimulatedPrediction data now), false⟩
  | .respOk =>
    match b.pred with
    | .fetchThrows => ⟨.ok (getSimulatedPrediction data now), true⟩
    | .respNotOk _ => ⟨.ok (getSimulatedPrediction data now), true⟩
    | .okParseFails => ⟨.ok (getSimulatedPrediction data now), true⟩
    | .okBody p =>
      if jsTruthyS p.error then ⟨.ok (getSimulatedPrediction data now), true⟩
      else ⟨.ok (normalizePrediction p now), true⟩

/-- Lowercasing of a string, character by character (JS `toLowerCase` on the
ASCII category strings used here). -/
def strLower (s : String) : String :=
  ⟨s.data.map Char.toLower⟩

/-- Containment of `sub` as a contiguous run inside `l`: `sub` is a prefix
of `l` or of one of its suffixes. -/
def charsInfix (sub : List Char) : List Char → Bool
  | [] => sub.isEmpty
  | c :: rest => sub.isPrefixOf (c :: rest) || charsInfix sub rest

/-- JS `haystack.includes(needle)`: substring containment. -/
def strIncludes (s sub : String) : Bool :=
  charsInfix sub.data s.data

/-- The four canonical report categories of the frontend. -/
inductive FrontCategory
  | Hotspot
  | Potential
  | NotHotspot
  | Invalid
  deriving DecidableEq, Repr

/-- `mapBackendCategoryToFrontend` (advanced-dengue-ai-client.ts lines
605–616): lowercase, then case-insensitive substring tests in source order,
defaulting to `Hotspot`. -/
def mapBackendCategoryToFrontend (backendCategory : String) : FrontCategory :=
  let category := strLower backendCategory
  if strIncludes category "breeding" || strIncludes category "high_risk"
      || strIncludes category "critical" || strIncludes category "hotspot" then
    .Hotspot
  else if strIncludes category "medium_risk" || strIncludes category "potential" then
    .Potential
  else if strIncludes category "low_risk" || strIncludes category "not_breeding"
      || strIncludes category "clean" || strIncludes category "safe" then
    .NotHotspot
  else
    .Hotspot

/-- A parsed JSON body of the `POST /api/v1/report` response, with every
field the `submitReport` normalizer probes. -/
structure ReportBody where
  detail : Option String
  status : Option String
  ai_classification : Option String
  confidence : Option ℚ
  risk_level : Option String
  features : Option (List String)
  recommendations : Option (List String)
  points_earned : Option ℚ
  points_awarded : Option ℚ
  xp_earned : Option ℚ
  xp_gained : Option ℚ
  achievement_unlocked : Option String
  level_up : Option Bool
  weather_data : Option BackWeather
  timestamp : Option String
  report_id : Option String
  deriving DecidableEq, Repr

/-- The backend behaviour one `submitReport` call can observe: the `fetch`
rejects with a message, or a response arrives with an `ok` flag, a status
text, an optional parsed body (`none` = `json()` rejects) and the parse
error's message for that case. -/
inductive ReportNet
  | transport (msg : String)
  | resp (ok : Bool) (statusText : String) (body : Option ReportBody) (parseMsg : String)
  deriving DecidableEq, Repr

/-- The `classification` block of an `AdvancedAnalysisResult`. -/
structure RClassification where
  category : FrontCategory
  confidence : ℚ
  description : String
  risk_level : String
  deriving DecidableEq, Repr

/-- The `ai_analysis` block of an `AdvancedAnalysisResult`. -/
structure RAiAnalysis where
  efficientnet_prediction : String
  confidence_score : ℚ
  feature_analysis : List String
  recommendations : List String
  deriving DecidableEq, Repr

/-- The `gamification` block of an `AdvancedAnalysisResult`. -/
structure RGamification where
  points_awarded : ℚ
  xp_gained : ℚ
  achievement_unlocked : Option String
  level_up : Bool
  deriving DecidableEq, Repr

/-- `AdvancedAnalysisResult`, the normalized result type of
`submitReport`. -/
structure AdvancedAnalysisResult where
  status : String
  classification : RClassification
  ai_analysis : RAiAnalysis
  gamification : RGamification
  weather_data : Option BackWeather
  timestamp : String
  image_id : String
  deriving DecidableEq, Repr

/-- `submitReport` (advanced-dengue-ai-client.ts lines 537–600).  On a
non-OK response, the inner `throw new Error(errorData.detail || ...)` is
re-wrapped by the outer `catch` into
`Report submission failed: <message>` and the call rejects; a body that
fails to parse contributes `{detail: response.statusText}`.  On a 200, the
body is normalized field by field with `||` defaults.  `nowIso` models
`new Date().toISOString()` and `nowMs` the `Date.now()` used in the
fallback report id. -/
def submitReport (net : ReportNet) (nowIso nowMs : String) :
    Except String AdvancedAnalysisResult :=
  match net with
  | .transport msg => .error ("Report submission failed: " ++ msg)
  | .resp ok statusText body parseMsg =>
    if ok = false then
      let errorDetail : Option String :=
        match body with
        | none => some statusText
        | some b => b.detail
      let inner :=
        jsOrS errorDetail ("Report submission failed: " ++ statusText)
      .error ("Report submission failed: " ++ inner)
    else
      match body with
      | none => .error ("Report submission failed: " ++ parseMsg)
      | some result =>
        .ok
          { status := jsOrS result.status "success"
            classification :=
              { category :=
                  mapBackendCategoryToFrontend
                    (jsOrS result.ai_classification "breeding_site")
                confidence := jsOrN result.confidence 0
                description := jsOrS result.ai_classification "Analysis completed"
                risk_level := jsOrS result.risk_level "Medium" }
            ai_analysis :=
              { efficientnet_prediction :=
                  jsOrS result.ai_classification "Quantum-Enhanced CNN Analysis"
                confidence_score := jsOrN result.confidence 0
                feature_analysis := jsOrArr result.features []
                recommendations := jsOrArr result.recommendations [] }
            gamification :=
              { points_awarded :=
                  jsOrN result.points_earned (jsOrN result.points_awarded 50)
                xp_gained := jsOrN result.xp_earned (jsOrN result.xp_gained 25)
                achievement_unlocked := result.achievement_unlocked
                level_up := jsOrB result.level_up }
            weather_data := result.weather_data
            timestamp := jsOrS result.timestamp nowIso
            image_id := jsOrS result.report_id ("report_" ++ nowMs) }

/-- The raw `BackendPredictionResponse` returned unchanged by the second
client variant on success. -/
structure BackendPredictionResponse where
  prediction_id : String
  location : String
  state : String
  risk_level : String
  predicted_cases : ℚ
  confidence : ℚ
  prediction_date : String
  risk_factors : List String
  recommendations : List String
  created_at : String
  deriving DecidableEq, Repr

/-- The backend behaviour one second-variant `predictOutbreak` call can
observe.  `healthFails` covers both a rejecting health `fetch` and a non-OK
health response (the variant's `healthCheck` collapses both to `false`). -/
inductive Pred2Net
  | healthFails
  | predTransport (msg : String)
  | predResp (ok : Bool) (statusText : String) (detail : Option String)
      (payload : Option BackendPredictionResponse)
  deriving DecidableEq, Repr

/-- The second client variant's `predictOutbreak` (advanced-dengue-ai-client.ts
lines 722–760, after the separator): throws when the health check fails, on
a non-OK response throws the body's `detail` (with fallbacks), and returns
the raw parsed payload on success (`payload = none` models a 200 whose
`json()` rejects, surfaced via the outer catch-and-rethrow). -/
def predictOutbreakV2 (data : OutbreakPredictionRequest) (net : Pred2Net)
    (parseMsg : String) : Except String BackendPredictionResponse :=
  match net with
  | .healthFails =>
    .error "AI service is currently unavailable. Please try again later."
  | .predTransport msg => .error msg
  | .predResp ok statusText detail payload =>
    if ok = false then
      let errorDetail : Option String :=
        match payload, detail with
        | _, some d => some d
        | _, none =>
          match payload with
          | some _ => none
          | none => some (jsOrS (some statusText) "Unknown error occurred")
      .error (jsOrS errorDetail "Failed to get prediction from AI model")
    else
      match payload with
      | none => .error parseMsg
      | some result => .ok result

/-- The sample prediction request of the spec's numeric test case:
`{temperature: 32, humidity: 80, rainfall: 10}`. -/
def requestC3 : OutbreakPredictionRequest :=
  { location := "Kuala Lumpur", state := "Selangor",
    temperature := some 32, humidity := some 80, rainfall := some 10,
    wind_speed := none, description := none, date := none }

/-- C4: For every temperature in [25,30], every humidity ≥ 70 and every
rainfall > 100, the risk scorer returns level Critical with a summed score
≥ 7 (here: exactly 9). -/
theorem assessRisk_critical_on_optimal_conditions (t h r : ℚ)
    (h1 : 25 ≤ t) (h2 : t ≤ 30) (h3 : 70 ≤ h) (h4 : 100 < r) :
    (assessDengueRisk t h r).risk = RiskLevel.Critical ∧
      7 ≤ (dengueScoreReasons t h r).1 := by
  have e1 : (25 ≤ t ∧ t ≤ 30) = True := eq_true ⟨h1, h2⟩
  have e2 : (70 ≤ h) = True := eq_true h3
  have e3 : (100 < r) = True := eq_true h4
  have hs : (dengueScoreReasons t h r).1 = 9 := by
    simp only [dengueScoreReasons, e1, e2, e3, if_true]
    decide
  constructor
  · norm_num [assessDengueRisk, hs]
  · rw [hs]; norm_num

/-- Witness for C4 at temperature 27, humidity 75, rainfall 150. -/
theorem assessRisk_critical_on_optimal_conditions_witness :
    ((25:ℚ) ≤ 27 ∧ (27:ℚ) ≤ 30 ∧ (70:ℚ) ≤ 75 ∧ (100:ℚ) < 150) ∧
      ((assessDengueRisk 27 75 150).risk = RiskLevel.Critical ∧
        7 ≤ (dengueScoreReasons 27 75 150).1) :=
  ⟨by norm_num,
    assessRisk_critical_on_optimal_conditions 27 75 150
      (by norm_num) (by norm_num) (by norm_num) (by norm_num)⟩

/-- C9: The scorer's reasons sequence is exactly the temperature-rule
reasons, then the humidity-rule reasons, then the rainfall-rule reasons,
then the level-context reason determined by the summed score — a pure
function of the inputs, so equal inputs reproduce it exactly. -/
theorem assessRisk_reasons_in_rule_order (t h r : ℚ) :
    (assessDengueRisk t h r).reasoning =
      tempReasons t ++ humidityReasons h ++ rainfallReasons r ++
        levelReasons (dengueScoreReasons t h r).1 := by
  have hsnd := dengueScoreReasons_snd t h r
  by_cases hA : 7 ≤ (dengueScoreReasons t h r).1
  · simp [assessDengueRisk, levelReasons, hA, hsnd, List.append_assoc]
  · by_cases hB : 5 ≤ (dengueScoreReasons t h r).1
    · simp [assessDengueRisk, levelReasons, hA, hB, hsnd, List.append_assoc]
    · by_cases hC : 3 ≤ (dengueScoreReasons t h r).1
      · simp [assessDengueRisk, levelReasons, hA, hB, hC, hsnd, List.append_assoc]
      · simp [assessDengueRisk, levelReasons, hA, hB, hC, hsnd, List.append_assoc]

/-- C5 (code evaluation at the failing input): the backend category
`"not_breeding"` is normalized to `Hotspot`, not `Not Hotspot`, because the
first branch's `includes('breeding')` test already matches it, making the
later `includes('not_breeding')` test unreachable. -/
theorem mapBackend_not_breeding_yields_hotspot :
    mapBackendCategoryToFrontend "not_breeding" = FrontCategory.Hotspot ∧
      FrontCategory.Hotspot ≠ FrontCategory.NotHotspot := by
  constructor
  · decide
  · decide

/-- C1 (counterexample to the claim over both cited `predictOutbreak`
implementations): the second client variant rejects — with the
service-unavailable message — as soon as the health check fails, so it does
not always resolve. -/
theorem predictOutbreakV2_rejects_when_unhealthy :
    predictOutbreakV2 requestC3 Pred2Net.healthFails "parse error"
      = Except.error "AI service is currently unavailable. Please try again later." :=
  rfl

/-- C1 (amended): the primary client's `predictOutbreak` resolves with a
fully populated prediction for every request and every backend behaviour —
transport errors, non-OK probes or responses, unparsable bodies, and error
payloads all land in a simulated prediction rather than a rejection. -/
theorem predictOutbreak_primary_always_resolves
    (data : OutbreakPredictionRequest) (b : Behavior1) (now : String) :
    ∃ p, (predictOutbreak data b now).result = Except.ok p := by
  obtain ⟨health, pred⟩ := b
  cases health <;> try exact ⟨_, rfl⟩
  cases pred <;> try exact ⟨_, rfl⟩
  rename_i p
  by_cases he : jsTruthyS p.error = true
  · refine ⟨getSimulatedPrediction data now, ?_⟩
    simp [predictOutbreak, he]
  · refine ⟨normalizePrediction p now, ?_⟩
    simp [predictOutbreak, he]

/-- C2: whenever the health probe does not respond OK (non-OK status or a
rejecting fetch), the primary `predictOutbreak` resolves with the locally
simulated prediction and never issues the prediction network call. -/
theorem healthProbeFail_simulated_no_predict_call
    (data : OutbreakPredictionRequest) (b : Behavior1) (now : String)
    (hb : b.health ≠ HealthOutcome.respOk) :
    (predictOutbreak data b now).result
        = Except.ok (getSimulatedPrediction data now) ∧
      (predictOutbreak data b now).predCalled = false := by
  obtain ⟨health, pred⟩ := b
  cases health with
  | fetchThrows => exact ⟨rfl, rfl⟩
  | respNotOk => exact ⟨rfl, rfl⟩
  | respOk => exact absurd rfl hb

/-- Witness for C2: a non-OK health response. -/
theorem healthProbeFail_simulated_no_predict_call_witness :
    (Behavior1.mk HealthOutcome.respNotOk PredOutcome.fetchThrows).health
        ≠ HealthOutcome.respOk ∧
      ((predictOutbreak requestC3
            (Behavior1.mk HealthOutcome.respNotOk PredOutcome.fetchThrows)
            "2025-01-01T00:00:00.000Z").result
          = Except.ok (getSimulatedPrediction requestC3 "2025-01-01T00:00:00.000Z") ∧
        (predictOutbreak requestC3
            (Behavior1.mk HealthOutcome.respNotOk PredOutcome.fetchThrows)
            "2025-01-01T00:00:00.000Z").predCalled = false) :=
  ⟨by decide,
    healthProbeFail_simulated_no_predict_call requestC3
      (Behavior1.mk HealthOutcome.respNotOk PredOutcome.fetchThrows)
      "2025-01-01T00:00:00.000Z" (by decide)⟩

attribute [local semireducible] Rat.add Rat.mul Rat.inv Rat.sub

/-- C3 (counterexample): for `{temperature: 32, humidity: 80, rainfall: 10}`
the simulated outbreak probability is not 0.8 — neither the rational 4/5 nor
the double nearest to 0.8.  Double arithmetic produces
`(0.8 + 0.9 + 0.7) / 3 = 0.8000000000000002`, strictly above 0.8, which is
also the only reason the `> 0.8` breakpoint yields `Critical`. -/
theorem simulatedC3_probability_is_not_point8 :
    (getSimulatedPrediction requestC3 "2025-01-01T00:00:00.000Z").prediction.outbreak_probability
        ≠ 4 / 5 ∧
      (getSimulatedPrediction requestC3 "2025-01-01T00:00:00.000Z").prediction.outbreak_probability
        ≠ fl (8/10) := by
  constructor
  · decide
  · decide

/-- C3 (amended): for `{temperature: 32, humidity: 80, rainfall: 10}` with a
failing backend, the simulated prediction has tempRisk 0.8, humidityRisk
0.9 and rainfallRisk 0.7 (as the doubles denoted by those literals), an
outbreak probability equal to their double-arithmetic average
0.8000000000000002 = 7205759403792795/2^53 — strictly greater than the
double 0.8, hence risk level Critical under the `> 0.8` breakpoint — and
predicted cases `Math.floor(avg * 150) = 120`. -/
theorem simulatedC3_evaluation :
    (getSimulatedPrediction requestC3 "2025-01-01T00:00:00.000Z").environmental_factors.temperature_impact
        = fl (8/10) ∧
      (getSimulatedPrediction requestC3 "2025-01-01T00:00:00.000Z").environmental_factors.humidity_impact
        = fl (9/10) ∧
      (getSimulatedPrediction requestC3 "2025-01-01T00:00:00.000Z").environmental_factors.rainfall_impact
        = fl (7/10) ∧
      (getSimulatedPrediction requestC3 "2025-01-01T00:00:00.000Z").prediction.outbreak_probability
        = 7205759403792795 / 9007199254740992 ∧
      fl (8/10)
        < (getSimulatedPrediction requestC3 "2025-01-01T00:00:00.000Z").prediction.outbreak_probability ∧
      (getSimulatedPrediction requestC3 "2025-01-01T00:00:00.000Z").prediction.risk_level
        = "Critical" ∧
      (getSimulatedPrediction requestC3 "2025-01-01T00:00:00.000Z").prediction.predicted_cases
        = 120 := by
  refine ⟨?_, ?_, ?_, ?_, ?_, ?_, ?_⟩ <;> decide

lemma isPrefixOf_self (l : List Char) : l.isPrefixOf l = true := by
  induction l with
  | nil => rfl
  | cons c cs ih => simp [List.isPrefixOf, ih]

lemma charsInfix_nil (l : List Char) : charsInfix [] l = true := by
  induction l with
  | nil => rfl
  | cons c rest ih => simp [charsInfix, List.isPrefixOf]

lemma charsInfix_append (pre sub : List Char) :
    charsInfix sub (pre ++ sub) = true := by
  induction pre with
  | nil =>
    cases sub with
    | nil => rfl
    | cons c cs => simp [charsInfix, isPrefixOf_self]
  | cons c rest ih => simp [charsInfix, ih]

lemma strIncludes_empty (s : String) : strIncludes s "" = true :=
  charsInfix_nil s.data

lemma strIncludes_append_right (a b : String) : strIncludes (a ++ b) b = true := by
  unfold strIncludes
  have hd : (a ++ b).data = a.data ++ b.data := by
    cases a
    cases b
    rfl
  rw [hd]
  exact charsInfix_append a.data b.data

lemma strIncludes_append_append (a b c : String) :
    strIncludes (a ++ (b ++ c)) c = true := by
  unfold strIncludes
  have hd : (a ++ (b ++ c)).data = (a.data ++ b.data) ++ c.data := by
    cases a
    cases b
    cases c
    show _ ++ (_ ++ _) = _
    rw [List.append_assoc]
  rw [hd]
  exact charsInfix_append _ _

/-- C6: if a weather fetch succeeds — populating the cache — and the same
location is requested again less than 10 minutes later, the second call
returns the identical cached payload and issues no network request,
whatever the network would have answered. -/
theorem weatherCache_hit_within_ttl (cache : String → Option WSCacheEntry)
    (t0 t1 : ℤ) (d : WeatherStackResponse) (loc : String) (net2 : WSNet)
    (h0 : (getWeatherStackData cache t0 (WSNet.ok d) loc).fetched = true)
    (h1 : t1 - t0 < cacheTimeout) :
    (getWeatherStackData (getWeatherStackData cache t0 (WSNet.ok d) loc).cache
        t1 net2 loc).resp = some d ∧
      (getWeatherStackData (getWeatherStackData cache t0 (WSNet.ok d) loc).cache
        t1 net2 loc).fetched = false := by
  cases hc : cache ("weatherstack_" ++ loc) with
  | some e =>
    by_cases ht : t0 - e.timestamp < cacheTimeout
    · exfalso
      simp [getWeatherStackData, hc, ht] at h0
    · have hcache1 : (getWeatherStackData cache t0 (WSNet.ok d) loc).cache
          = fun key => if key = "weatherstack_" ++ loc then
              some ⟨d, t0⟩ else cache key := by
        simp [getWeatherStackData, hc, ht]
      constructor <;> (rw [hcache1]; simp [getWeatherStackData, h1])
  | none =>
    have hcache1 : (getWeatherStackData cache t0 (WSNet.ok d) loc).cache
        = fun key => if key = "weatherstack_" ++ loc then
            some ⟨d, t0⟩ else cache key := by
      simp [getWeatherStackData, hc]
    constructor <;> (rw [hcache1]; simp [getWeatherStackData, h1])

/-- A sample WeatherStack payload. -/
def wsSample : WeatherStackResponse :=
  { current :=
      { temperature := 30, humidity := 75, precip := 5, feelslike := 34,
        uv_index := 7, visibility := 10,
        weather_descriptions := ["Partly cloudy"] }
    location :=
      { name := "Kuala Lumpur", country := "Malaysia",
        region := "Kuala Lumpur" } }

/-- Witness for C6: an empty cache, a successful fetch at time 0, a second
call one minute later against a dead network. -/
theorem weatherCache_hit_within_ttl_witness :
    ((getWeatherStackData (fun _ => none) 0 (WSNet.ok wsSample)
        "Kuala Lumpur").fetched = true ∧ (60000 : ℤ) - 0 < cacheTimeout) ∧
      ((getWeatherStackData
          (getWeatherStackData (fun _ => none) 0 (WSNet.ok wsSample)
            "Kuala Lumpur").cache
          60000 WSNet.transportError "Kuala Lumpur").resp = some wsSample ∧
        (getWeatherStackData
          (getWeatherStackData (fun _ => none) 0 (WSNet.ok wsSample)
            "Kuala Lumpur").cache
          60000 WSNet.transportError "Kuala Lumpur").fetched = false) :=
  ⟨⟨rfl, by decide⟩,
    weatherCache_hit_within_ttl (fun _ => none) 0 60000 wsSample
      "Kuala Lumpur" WSNet.transportError rfl (by decide)⟩

/-- C7: every non-2xx `submitReport` response makes the call reject, with an
error message that contains the JSON body's `detail` field whenever one is
present and the HTTP status text otherwise (including when the body cannot
be parsed at all). -/
theorem submitReport_nonOk_rejects_with_detail
    (st pm nowIso nowMs : String) (body : Option ReportBody) :
    ∃ msg,
      submitReport (ReportNet.resp false st body pm) nowIso nowMs
          = Except.error msg ∧
        (∀ b d, body = some b → b.detail = some d →
          strIncludes msg d = true) ∧
        ((∀ b, body = some b → b.detail = none) →
          strIncludes msg st = true) := by
  cases body with
  | none =>
    by_cases hst : st = ""
    · subst hst
      refine ⟨"Report submission failed: "
          ++ ("Report submission failed: " ++ ""), ?_, ?_, ?_⟩
      · simp [submitReport, jsOrS]
      · intro b d hb _
        exact absurd hb (by simp)
      · intro _
        exact strIncludes_empty _
    · refine ⟨"Report submission failed: " ++ st, ?_, ?_, ?_⟩
      · simp [submitReport, jsOrS, hst]
      · intro b d hb _
        exact absurd hb (by simp)
      · intro _
        exact strIncludes_append_right _ _
  | some b =>
    cases hd : b.detail with
    | none =>
      refine ⟨"Report submission failed: "
          ++ ("Report submission failed: " ++ st), ?_, ?_, ?_⟩
      · simp [submitReport, jsOrS, hd]
      · intro b2 d hb2 hdd
        injection hb2 with he
        subst he
        rw [hd] at hdd
        cases hdd
      · intro _
        exact strIncludes_append_append _ _ _
    | some d =>
      by_cases hde : d = ""
      · subst hde
        refine ⟨"Report submission failed: "
            ++ ("Report submission failed: " ++ st), ?_, ?_, ?_⟩
        · simp [submitReport, jsOrS, hd]
        · intro b2 d2 hb2 hdd
          injection hb2 with he
          subst he
          rw [hd] at hdd
          injection hdd with he2
          subst he2
          exact strIncludes_empty _
        · intro hall
          have hcon := hall b rfl
          rw [hd] at hcon
          cases hcon
      · refine ⟨"Report submission failed: " ++ d, ?_, ?_, ?_⟩
        · simp [submitReport, jsOrS, hd, hde]
        · intro b2 d2 hb2 hdd
          injection hb2 with he
          subst he
          rw [hd] at hdd
          injection hdd with he2
          subst he2
          exact strIncludes_append_right _ _
        · intro hall
          have hcon := hall b rfl
          rw [hd] at hcon
          cases hcon

/-- A report body whose `detail` carries a backend-provided message. -/
def detailBody : ReportBody :=
  { detail := some "Location field is required", status := none,
    ai_classification := none, confidence := none, risk_level := none,
    features := none, recommendations := none, points_earned := none,
    points_awarded := none, xp_earned := none, xp_gained := none,
    achievement_unlocked := none, level_up := none, weather_data := none,
    timestamp := none, report_id := none }

/-- Witness for C7 at a concrete 400 response carrying a `detail` field. -/
theorem submitReport_nonOk_rejects_with_detail_witness :
    ∃ msg,
      submitReport (ReportNet.resp false "Bad Request" (some detailBody)
            "parse error") "2025-01-01T00:00:00.000Z" "1735689600000"
          = Except.error msg ∧
        (∀ b d, (some detailBody : Option ReportBody) = some b →
          b.detail = some d → strIncludes msg d = true) ∧
        ((∀ b, (some detailBody : Option ReportBody) = some b →
          b.detail = none) → strIncludes msg "Bad Request" = true) :=
  submitReport_nonOk_rejects_with_detail "Bad Request" "parse error"
    "2025-01-01T00:00:00.000Z" "1735689600000" (some detailBody)

/-- C8: on an HTTP-success prediction response (no error payload), the call
resolves with the normalized result, in which a missing `confidence` field
defaults to 0.85 and a missing `predicted_cases` field defaults to 85. -/
theorem predictOutbreak_defaults_missing_fields
    (data : OutbreakPredictionRequest) (p : PredPayload) (now : String)
    (he : jsTruthyS p.error = false) :
    (predictOutbreak data ⟨HealthOutcome.respOk, PredOutcome.okBody p⟩ now).result
        = Except.ok (normalizePrediction p now) ∧
      ((selectPrediction p).confidence = none →
        (normalizePrediction p now).prediction.confidence = fl (85/100)) ∧
      ((selectPrediction p).predicted_cases = none →
        (normalizePrediction p now).prediction.predicted_cases = 85) := by
  refine ⟨?_, ?_, ?_⟩
  · simp [predictOutbreak, he]
  · intro h
    simp [normalizePrediction, h, jsOrN]
  · intro h
    simp [normalizePrediction, h, jsOrN]

/-- A 200 payload carrying no recognized fields at all. -/
def emptyPayload : PredPayload :=
  { error := none, ai_analysis := none, risk_assessment := none,
    basic_prediction := none,
    selfFields :=
      { risk_score := none, confidence := none, risk_level := none,
        predicted_cases := none },
    real_weather_data := none, weather_data := none,
    recommendations := none }

/-- Witness for C8 at a payload missing both fields. -/
theorem predictOutbreak_defaults_missing_fields_witness :
    jsTruthyS emptyPayload.error = false ∧
      ((predictOutbreak requestC3
            ⟨HealthOutcome.respOk, PredOutcome.okBody emptyPayload⟩
            "2025-01-01T00:00:00.000Z").result
          = Except.ok (normalizePrediction emptyPayload "2025-01-01T00:00:00.000Z") ∧
        ((selectPrediction emptyPayload).confidence = none →
          (normalizePrediction emptyPayload "2025-01-01T00:00:00.000Z").prediction.confidence
            = fl (85/100)) ∧
        ((selectPrediction emptyPayload).predicted_cases = none →
          (normalizePrediction emptyPayload "2025-01-01T00:00:00.000Z").prediction.predicted_cases
            = 85)) :=
  ⟨rfl,
    predictOutbreak_defaults_missing_fields requestC3 emptyPayload
      "2025-01-01T00:00:00.000Z" rfl⟩

lemma jsOrN_ne_zero (x : Option ℚ) (y : ℚ) (hy : y ≠ 0) : jsOrN x y ≠ 0 := by
  cases x with
  | none => simpa [jsOrN] using hy
  | some v =>
    by_cases hv : v = 0
    · simpa [jsOrN, hv] using hy
    · simpa [jsOrN, hv] using hv

/-- A 200 report body with `points_earned: 0` but a nonzero legacy
`points_awarded`. -/
def zeroPointsBody : ReportBody :=
  { detail := none, status := none, ai_classification := none,
    confidence := none, risk_level := none, features := none,
    recommendations := none, points_earned := some 0,
    points_awarded := some 30, xp_earned := none, xp_gained := none,
    achievement_unlocked := none, level_up := none, weather_data := none,
    timestamp := none, report_id := none }

/-- C10 (counterexample): a response with `points_earned: 0` and
`points_awarded: 30` is normalized to 30 points, not to the documented
default 50 — the zero falls through the `||` chain to the legacy field
first. -/
theorem submitReport_zero_points_earned_cex :
    Except.map (fun r => r.gamification.points_awarded)
        (submitReport (ReportNet.resp true "OK" (some zeroPointsBody)
          "parse error") "2025-01-01T00:00:00.000Z" "1735689600000")
      = Except.ok 30 ∧ (30 : ℚ) ≠ 50 :=
  ⟨rfl, by norm_num⟩

/-- C10 (amended): a backend zero in `confidence` or `predicted_cases` is
replaced by the `predictOutbreak` normalizer's defaults (0.85, 85); a zero
`points_earned` (resp. `xp_earned`) falls through `submitReport`'s `||`
chain to `points_awarded` (resp. `xp_gained`) when that is present and
nonzero, and otherwise to the defaults 50 (resp. 25) — so a zero supplied
by the backend is never surfaced in any of these four normalized fields. -/
theorem zero_numeric_fields_never_surfaced
    (p : PredPayload) (b : ReportBody) (now st pm nowIso nowMs : String)
    (hc : (selectPrediction p).confidence = some 0)
    (hp : (selectPrediction p).predicted_cases = some 0)
    (hpe : b.points_earned = some 0)
    (hxe : b.xp_earned = some 0) :
    (normalizePrediction p now).prediction.confidence = fl (85/100) ∧
      (normalizePrediction p now).prediction.predicted_cases = 85 ∧
      ∃ res,
        submitReport (ReportNet.resp true st (some b) pm) nowIso nowMs
            = Except.ok res ∧
          res.gamification.points_awarded = jsOrN b.points_awarded 50 ∧
          res.gamification.points_awarded ≠ 0 ∧
          res.gamification.xp_gained = jsOrN b.xp_gained 25 ∧
          res.gamification.xp_gained ≠ 0 := by
  refine ⟨?_, ?_, ?_⟩
  · simp [normalizePrediction, hc, jsOrN]
  · simp [normalizePrediction, hp, jsOrN]
  · refine ⟨_, rfl, ?_, ?_, ?_, ?_⟩
    · simp [hpe, jsOrN]
    · simp [hpe, jsOrN]
      exact jsOrN_ne_zero _ _ (by norm_num)
    · simp [hxe, jsOrN]
    · simp [hxe, jsOrN]
      exact jsOrN_ne_zero _ _ (by norm_num)

/-- A 200 report body in which both reward fields are zero and no legacy
variants are present. -/
def zeroFieldsBody : ReportBody :=
  { detail := none, status := none, ai_classification := none,
    confidence := none, risk_level := none, features := none,
    recommendations := none, points_earned := some 0,
    points_awarded := none, xp_earned := some 0, xp_gained := none,
    achievement_unlocked := none, level_up := none, weather_data := none,
    timestamp := none, report_id := none }

/-- A 200 prediction payload whose selected prediction block carries
`confidence: 0` and `predicted_cases: 0`. -/
def zeroFieldsPayload : PredPayload :=
  { error := none, ai_analysis := none, risk_assessment := none,
    basic_prediction := none,
    selfFields :=
      { risk_score := none, confidence := some 0, risk_level := none,
        predicted_cases := some 0 },
    real_weather_data := none, weather_data := none,
    recommendations := none }

/-- Witness for the amended C10 at concrete zero-valued payloads. -/
theorem zero_numeric_fields_never_surfaced_witness :
    ((selectPrediction zeroFieldsPayload).confidence = some 0 ∧
        (selectPrediction zeroFieldsPayload).predicted_cases = some 0 ∧
        zeroFieldsBody.points_earned = some 0 ∧
        zeroFieldsBody.xp_earned = some 0) ∧
      ((normalizePrediction zeroFieldsPayload "T").prediction.confidence
          = fl (85/100) ∧
        (normalizePrediction zeroFieldsPayload "T").prediction.predicted_cases
          = 85 ∧
        ∃ res,
          submitReport (ReportNet.resp true "OK" (some zeroFieldsBody) "pm")
              "T" "0" = Except.ok res ∧
            res.gamification.points_awarded = jsOrN zeroFieldsBody.points_awarded 50 ∧
            res.gamification.points_awarded ≠ 0 ∧
            res.gamification.xp_gained = jsOrN zeroFieldsBody.xp_gained 25 ∧
            res.gamification.xp_gained ≠ 0) :=
  ⟨⟨rfl, rfl, rfl, rfl⟩,
    zero_numeric_fields_never_surfaced zeroFieldsPayload zeroFieldsBody
      "T" "OK" "pm" "T" "0" rfl rfl rfl rfl⟩
